import Mathlib

/-!
Shallow embedding of the QuickStay hotel-booking AI-agent flow.

The definitions below translate `server/controllers/aiAgentController.js`
(`chatWithAI`, `createBookingViaAI`, `searchHotels`, `formatRoomsForAI`),
the Clerk webhook handler, and the data model they touch.  JavaScript
machine values are embedded as follows: numbers used as counts, prices and
epoch-millisecond timestamps become `Int`; strings stay `String`;
`null`/`undefined` become `Option`; a thrown exception becomes
`Except JSError`; the MongoDB collections become lists carried explicitly
through each handler.  Dates are embedded by their epoch-millisecond
timestamp (`new Date(x).getTime()`), and `Date#toDateString` is rendered
as the decimal timestamp, which is injective on timestamps and so does not
affect any equality proved here.
-/

namespace QuickStay

/-- JavaScript `String.prototype.includes` on character lists: `true` iff
`pat` occurs contiguously inside the other list. -/
def listIncludes (pat : List Char) : List Char → Bool
  | [] => pat.isEmpty
  | c :: rest => pat.isPrefixOf (c :: rest) || listIncludes pat rest

/-- JavaScript `s.includes(pat)`. -/
def strIncludes (s pat : String) : Bool :=
  listIncludes pat.toList s.toList

/-- `new RegExp(pat, "i").test s`, for the plain-text patterns the
controller builds: case-insensitive substring match. -/
def strIncludesCI (s pat : String) : Bool :=
  strIncludes s.toLower pat.toLower

/-- JavaScript truthiness of an optional string (`undefined`, `null` and
`""` are falsy). -/
def jsStrTruthy : Option String → Bool
  | none => false
  | some s => s ≠ ""

/-- JavaScript `x || d` for an optional string `x`. -/
def jsStrOr (x : Option String) (d : String) : String :=
  match x with
  | none => d
  | some s => if s = "" then d else s

/-- JavaScript truthiness of an optional number. -/
def jsNumTruthy : Option Int → Bool
  | none => false
  | some n => n ≠ 0

/-- A JavaScript request-body value, as far as the numeric coercion
`+x` used by `createBookingViaAI` observes it. -/
inductive JSVal where
  | undef
  | num (n : Int)
  | str (s : String)
deriving Repr, DecidableEq

/-- Decimal-digit run parser: `some` of the value when every character is
a digit, `none` otherwise. -/
def parseNatDigits (acc : Nat) : List Char → Option Nat
  | [] => some acc
  | c :: rest =>
    if '0' ≤ c ∧ c ≤ '9' then parseNatDigits (acc * 10 + (c.toNat - 48)) rest
    else none

/-- JavaScript `ToNumber` on a string, restricted to the integer numerals
the booking flow passes around: the empty string converts to `0`, an
optionally signed digit run to its value, anything else to `NaN`
(`none`). -/
def jsStringToNumber (s : String) : Option Int :=
  match s.toList with
  | [] => some 0
  | '-' :: ds =>
    if ds.isEmpty then none else (parseNatDigits 0 ds).map (fun n => -(n : Int))
  | '+' :: ds =>
    if ds.isEmpty then none else (parseNatDigits 0 ds).map (fun n => (n : Int))
  | ds => (parseNatDigits 0 ds).map (fun n => (n : Int))

/-- JavaScript `ToNumber` (the unary `+`) on a request value; `none`
models `NaN`.  `+undefined` is `NaN`, a numeral string converts, the
empty string converts to `0`, any other string to `NaN`. -/
def toNumber : JSVal → Option Int
  | .undef => none
  | .num n => some n
  | .str s => jsStringToNumber s

/-- `+guests || 1` from `createBookingViaAI`: `NaN` and `0` are falsy and
default to `1`. -/
def guestsOrOne (g : JSVal) : Int :=
  match toNumber g with
  | none => 1
  | some n => if n = 0 then 1 else n

/-- A thrown JavaScript error, by the two attributes the controller's
`catch` blocks inspect: `error.message` and `error.status`. -/
structure JSError where
  message : String
  status : Option Int
deriving Repr, DecidableEq

/-! ## Data model (`server/models/*.js`) -/

/-- A `User` document. -/
structure User where
  id : String
  email : String
  username : String
  image : String
  role : String
  recentSearchedCities : List String
deriving Repr, DecidableEq

/-- A `Hotel` document (the fields the agent controller reads). -/
structure Hotel where
  id : Nat
  name : String
  address : String
  city : String
deriving Repr, DecidableEq

/-- A `Room` document (the fields the agent controller reads). -/
structure Room where
  id : Nat
  hotel : Nat
  roomType : String
  pricePerNight : Int
  amenities : List String
  images : List String
  isAvailable : Bool
deriving Repr, DecidableEq

/-- A `Booking` document, as created by `createBookingViaAI`. -/
structure Booking where
  user : String
  room : Nat
  hotel : Nat
  guests : Int
  checkInDate : Int
  checkOutDate : Int
  totalPrice : Int
deriving Repr, DecidableEq

/-- The database state read and written by the handlers. -/
structure Env where
  users : List User
  hotels : List Hotel
  rooms : List Room
  bookings : List Booking
deriving Repr, DecidableEq

/-- Modelled from the spec: `checkAvailability` is defined in
`server/controllers/bookingController.js`, which is not among the provided
source files (only its callers in `aiAgentController.js` are).  The spec
describes the invariant it decides — "dates must not overlap for a given
room — a single range-overlap predicate" — so a requested stay is
available iff no existing booking for the same room has a date range
overlapping the requested one. -/
def checkAvailability (bookings : List Booking) (room : Nat)
    (checkInDate checkOutDate : Int) : Bool :=
  bookings.all fun b =>
    !(b.room == room && decide (b.checkInDate ≤ checkOutDate)
        && decide (checkInDate ≤ b.checkOutDate))

/-! ## Price arithmetic (`aiAgentController.js` lines 245-248, 427-432) -/

/-- `1000 * 3600 * 24`, the divisor in the nights computation. -/
def msPerDay : Int := 1000 * 3600 * 24

/-- `Math.ceil (a / b)` for an integer dividend `a` and nonnegative
integer divisor `b`, as exact integer arithmetic. -/
def jsCeilDiv (a b : Int) : Int := -((-a).fdiv b)

/-- `Math.ceil ((checkOut - checkIn) / (1000 * 3600 * 24))`. -/
def nightsBetween (checkInDate checkOutDate : Int) : Int :=
  jsCeilDiv (checkOutDate - checkInDate) msPerDay

/-! ## `createBookingViaAI` (`aiAgentController.js` lines 384-494) -/

/-- The request body of `POST /api/ai/book`.  The two date strings are
embedded by their parsed timestamps. -/
structure BookRequest where
  roomId : Nat
  checkInDate : Int
  checkOutDate : Int
  guests : JSVal
deriving Repr, DecidableEq

/-- The `booking` object of a successful `createBookingViaAI` response. -/
structure BookingInfo where
  hotelName : String
  checkInDate : Int
  checkOutDate : Int
  totalPrice : Int
  nights : Int
deriving Repr, DecidableEq

/-- The JSON response of `createBookingViaAI`. -/
structure BookResponse where
  success : Bool
  message : String
  booking : Option BookingInfo
deriving Repr, DecidableEq

/-- Response, resulting booking store, and whether a confirmation email
went out, for one `createBookingViaAI` call. -/
structure BookOutcome where
  resp : BookResponse
  bookings : List Booking
  emailSent : Bool
deriving Repr, DecidableEq

/-- `createBookingViaAI`: guard on login, user lookup, availability check,
room lookup, price computation, booking insertion, then the confirmation
email whose failure (`emailFails`) is caught and logged but never turns
the response into a failure.  A missing hotel on the room would make
`roomData.hotel._id` throw in JavaScript, landing in the outer `catch`
that answers "Failed to create booking. Please try again.". -/
def createBookingViaAI (req : BookRequest) (userId : Option String)
    (emailFails : Bool) (env : Env) : BookOutcome :=
  match userId with
  | none =>
    ⟨⟨false, "You need to be logged in to make a booking", none⟩, env.bookings, false⟩
  | some uid =>
    match env.users.find? (fun u => u.id == uid) with
    | none => ⟨⟨false, "User not found", none⟩, env.bookings, false⟩
    | some _user =>
      if checkAvailability env.bookings req.roomId req.checkInDate req.checkOutDate then
        match env.rooms.find? (fun r => r.id == req.roomId) with
        | none => ⟨⟨false, "Room not found", none⟩, env.bookings, false⟩
        | some roomData =>
          match env.hotels.find? (fun h => h.id == roomData.hotel) with
          | none =>
            ⟨⟨false, "Failed to create booking. Please try again.", none⟩, env.bookings, false⟩
          | some hotel =>
            let nights := nightsBetween req.checkInDate req.checkOutDate
            let totalPrice := roomData.pricePerNight * nights
            let booking : Booking :=
              ⟨uid, req.roomId, roomData.hotel, guestsOrOne req.guests,
               req.checkInDate, req.checkOutDate, totalPrice⟩
            ⟨⟨true, "Booking created successfully!",
               some ⟨hotel.name, req.checkInDate, req.checkOutDate, totalPrice, nights⟩⟩,
             env.bookings ++ [booking], !emailFails⟩
      else
        ⟨⟨false, "Room is not available for the selected dates", none⟩, env.bookings, false⟩

/-! ## `searchHotels` and `formatRoomsForAI` (`aiAgentController.js` lines 31-98) -/

/-- The `extractedData` object of the language model's parsed JSON reply.
Date strings are embedded by their parsed timestamps; a field the model
left `null` is `none`. -/
structure ExtractedData where
  city : Option String
  roomType : Option String
  checkInDate : Option Int
  checkOutDate : Option Int
  roomId : Option Nat
  guests : Option Int
  priceMin : Option Int
  priceMax : Option Int
  amenities : Option (List String)
deriving Repr, DecidableEq

/-- The parsed JSON reply of the language model. -/
structure AIAnalysis where
  intent : String
  extractedData : ExtractedData
  needsClarification : List String
  response : String
deriving Repr, DecidableEq

/-- `searchHotels`: the Mongo query built from the extracted data.  A
truthy `city` restricts to rooms of hotels whose city matches it
case-insensitively; a truthy `roomType` matches case-insensitively; a
truthy price bound constrains `pricePerNight`; a nonempty amenity list
requires some shared amenity (`$in`); only available rooms are returned,
at most 10 (`limit(10)`). -/
def searchHotels (env : Env) (q : ExtractedData) : List Room :=
  (env.rooms.filter fun r =>
    r.isAvailable
    && (match q.city with
        | none => true
        | some c =>
          if c = "" then true
          else ((env.hotels.filter fun h => strIncludesCI h.city c).map Hotel.id).contains r.hotel)
    && (match q.roomType with
        | none => true
        | some t => if t = "" then true else strIncludesCI r.roomType t)
    && (!jsNumTruthy q.priceMin || decide (q.priceMin.getD 0 ≤ r.pricePerNight))
    && (!jsNumTruthy q.priceMax || decide (r.pricePerNight ≤ q.priceMax.getD 0))
    && (match q.amenities with
        | none => true
        | some ams => ams.isEmpty || r.amenities.any fun a => ams.contains a)
  ).take 10

/-- `.populate("hotel")` over a list of rooms: pair each room with its
hotel document; a dangling hotel reference surfaces, as in JavaScript,
as a thrown null-dereference when the formatter reads `room.hotel.name`. -/
def resolveHotels (env : Env) : List Room → Except JSError (List (Room × Hotel))
  | [] => .ok []
  | r :: rs =>
    match env.hotels.find? (fun h => h.id == r.hotel) with
    | none => .error ⟨"Cannot read properties of null", none⟩
    | some h =>
      match resolveHotels env rs with
      | .error e => .error e
      | .ok l => .ok ((r, h) :: l)

/-- One numbered entry of the `formatRoomsForAI` listing. -/
def roomLine (n : Nat) (r : Room) (h : Hotel) : String :=
  toString n ++ ". **" ++ h.name ++ "**\n"
    ++ "   - Location: " ++ h.address ++ ", " ++ h.city ++ "\n"
    ++ "   - Room Type: " ++ r.roomType ++ "\n"
    ++ "   - Price: ₹" ++ toString r.pricePerNight ++ "/night\n"
    ++ "   - Amenities: " ++ String.intercalate ", " r.amenities ++ "\n"
    ++ "   - Room ID: " ++ toString r.id ++ "\n\n"

/-- `formatRoomsForAI`. -/
def formatRoomsForAI (rooms : List (Room × Hotel)) : String :=
  if rooms.isEmpty then
    "No hotels or rooms found matching your criteria."
  else
    "I found " ++ toString rooms.length ++ " room(s) for you:\n\n"
      ++ String.join (rooms.enum.map fun p => roomLine (p.1 + 1) p.2.1 p.2.2)
      ++ "Would you like to check availability or book any of these rooms?"

/-! ## The intent switch of `chatWithAI` (`aiAgentController.js` lines 211-333) -/

/-- One entry of the `search_results` action payload. -/
structure RoomSummary where
  id : Nat
  hotelName : String
  address : String
  city : String
  roomType : String
  pricePerNight : Int
  amenities : List String
  images : List String
deriving Repr, DecidableEq

/-- The projection of a populated room into the `search_results` payload. -/
def mkRoomSummary (p : Room × Hotel) : RoomSummary :=
  ⟨p.1.id, p.2.name, p.2.address, p.2.city, p.1.roomType,
   p.1.pricePerNight, p.1.amenities, p.1.images⟩

/-- The `actionData` payload the chat endpoint attaches to its reply. -/
inductive ActionData where
  | searchResults (rooms : List RoomSummary)
  | availabilityOk (roomId : Nat) (hotelName : String)
      (checkInDate checkOutDate totalPrice nights : Int)
  | availabilityNo
  | bookingConfirmation (roomId : Nat) (hotelName : String)
      (checkInDate checkOutDate guests totalPrice : Int)
deriving Repr, DecidableEq

/-- The fixed reply of the `greeting` branch. -/
def greetingText : String :=
  "Hello! I'm your AI assistant for hotel bookings. I can help you:\n- Search for hotels and rooms\n- Check room availability\n- Make bookings\n\nHow can I assist you today?"

/-- The reply of the `check_availability` branch when the room is free. -/
def availOkText (hotel : Hotel) (room : Room)
    (checkInDate checkOutDate nights totalPrice : Int) : String :=
  "Great news! The room is available for those dates.\n\n"
    ++ "**" ++ hotel.name ++ "** - " ++ room.roomType ++ "\n"
    ++ "Check-in: " ++ toString checkInDate ++ "\n"
    ++ "Check-out: " ++ toString checkOutDate ++ "\n"
    ++ "Nights: " ++ toString nights ++ "\n"
    ++ "Total Price: ₹" ++ toString totalPrice ++ "\n\n"
    ++ "Would you like to proceed with the booking?"

/-- The reply of the `check_availability` branch when the room is taken. -/
def availNoText : String :=
  "I'm sorry, but this room is not available for the selected dates. Would you like me to search for alternative rooms?"

/-- The booking summary built by the `book` branch. -/
def bookSummaryText (hotel : Hotel) (room : Room)
    (checkInDate checkOutDate guests totalPrice : Int) : String :=
  "Perfect! I can help you book this room.\n\n"
    ++ "**Booking Summary:**\n"
    ++ "Hotel: " ++ hotel.name ++ "\n"
    ++ "Room Type: " ++ room.roomType ++ "\n"
    ++ "Check-in: " ++ toString checkInDate ++ "\n"
    ++ "Check-out: " ++ toString checkOutDate ++ "\n"
    ++ "Guests: " ++ toString guests ++ "\n"
    ++ "Total Price: ₹" ++ toString totalPrice ++ "\n\n"
    ++ "Should I proceed with the booking?"

/-- `aiAnalysis.extractedData.guests || 1` in the `book` branch (no `+`
coercion there: the parsed JSON field is already a number or `null`). -/
def jsonGuestsOrOne (g : Option Int) : Int :=
  match g with
  | none => 1
  | some n => if n = 0 then 1 else n

/-- The `switch (aiAnalysis.intent)` of `chatWithAI`: from the parsed
reply, the database and the optional authenticated user to the reply text
and action payload, or a thrown error (a null dereference on a missing
room or hotel document).  Falling out of a branch whose inner guard fails
leaves `aiResponse = aiAnalysis.response` and `actionData = null`, as in
the source. -/
def handleIntent (env : Env) (userId : Option String) (a : AIAnalysis) :
    Except JSError (String × Option ActionData) :=
  if a.intent = "search" then
    if a.needsClarification.isEmpty then
      match resolveHotels env (searchHotels env a.extractedData) with
      | .error e => .error e
      | .ok rooms =>
        .ok (formatRoomsForAI rooms, some (.searchResults (rooms.map mkRoomSummary)))
    else .ok (a.response, none)
  else if a.intent = "check_availability" then
    match a.extractedData.roomId, a.extractedData.checkInDate, a.extractedData.checkOutDate with
    | some rid, some ci, some co =>
      if checkAvailability env.bookings rid ci co then
        match env.rooms.find? (fun r => r.id == rid) with
        | none => .error ⟨"Cannot read properties of null", none⟩
        | some room =>
          match env.hotels.find? (fun h => h.id == room.hotel) with
          | none => .error ⟨"Cannot read properties of null", none⟩
          | some hotel =>
            let nights := nightsBetween ci co
            let totalPrice := room.pricePerNight * nights
            .ok (availOkText hotel room ci co nights totalPrice,
                 some (.availabilityOk room.id hotel.name ci co totalPrice nights))
      else
        .ok (availNoText, some .availabilityNo)
    | _, _, _ => .ok (a.response, none)
  else if a.intent = "book" then
    match userId with
    | none => .ok ("You need to be logged in to make a booking. Please log in first.", none)
    | some _ =>
      if a.needsClarification.isEmpty then
        match a.extractedData.roomId.bind (fun rid => env.rooms.find? (fun r => r.id == rid)) with
        | none => .ok (a.response, none)
        | some room =>
          match env.hotels.find? (fun h => h.id == room.hotel) with
          | none => .error ⟨"Cannot read properties of null", none⟩
          | some hotel =>
            let ci := a.extractedData.checkInDate.getD 0
            let co := a.extractedData.checkOutDate.getD 0
            let nights := nightsBetween ci co
            let totalPrice := room.pricePerNight * nights
            let guests := jsonGuestsOrOne a.extractedData.guests
            .ok (bookSummaryText hotel room ci co guests totalPrice,
                 some (.bookingConfirmation room.id hotel.name ci co guests totalPrice))
      else .ok (a.response, none)
  else if a.intent = "greeting" then
    .ok (greetingText, none)
  else
    .ok (a.response, none)

/-- Lines 324-326: append the clarification request when the reply asked
for one. -/
def clarify (a : AIAnalysis) (msg : String) : String :=
  if a.needsClarification.isEmpty then msg
  else msg ++ "\n\nI need a bit more information: "
        ++ String.intercalate ", " a.needsClarification

/-! ## The retry/fallback loop (`aiAgentController.js` lines 151-190) -/

/-- The two environment variables the chat handler reads. -/
structure Settings where
  geminiApiKey : Option String
  geminiModelName : Option String
deriving Repr, DecidableEq

/-- The transport-error test applied to `error.message` (lines 177 and
353). -/
def isTransportError (e : JSError) : Bool :=
  strIncludes e.message "fetch failed" || strIncludes e.message "ECONNREFUSED"
    || strIncludes e.message "ENOTFOUND"

/-- The model-not-found test applied to `error.message` (lines 167 and
361). -/
def isModelNotFoundError (e : JSError) : Bool :=
  strIncludes e.message "404" && strIncludes e.message "model"

/-- `const fallbackModels = ["gemini-2.5-flash", "gemini-1.5-flash", "gemini-pro"]`. -/
def fallbackModels : List String :=
  ["gemini-2.5-flash", "gemini-1.5-flash", "gemini-pro"]

/-- How the `while (retries > 0)` loop ends: a `generateContent` success
(`break`), a rethrown error, or falling out with no result (only possible
from `retries = 0`, where line 189 throws the last error or a fresh
"Failed to get response from AI").  Each constructor carries the number of
`generateContent` calls made. -/
inductive RetryResult where
  | success (calls : Nat)
  | thrown (e : JSError) (calls : Nat)
  | exhausted (lastErr : Option JSError) (calls : Nat)
deriving Repr, DecidableEq

/-- Calls made by the loop, whatever the ending. -/
def RetryResult.calls : RetryResult → Nat
  | .success c => c
  | .thrown _ c => c
  | .exhausted _ c => c

/-- The body of the retry loop.  `oracle k` is the outcome of the `k`-th
`generateContent` call (`none` for success); `idx` is
`currentModelIndex`.  A 404-on-model error below the end of the fallback
list advances the model without consuming a retry; a transport error with
more than one retry left consumes a retry (after a 1-second wait, which
has no observable effect here); anything else is rethrown at once. -/
def retryLoopAux (oracle : Nat → Option JSError) (lastErr : Option JSError)
    (calls retries idx : Nat) : RetryResult :=
  if retries = 0 then .exhausted lastErr calls
  else
    match oracle calls with
    | none => .success (calls + 1)
    | some e =>
      if isModelNotFoundError e && decide (idx < fallbackModels.length - 1) then
        retryLoopAux oracle (some e) (calls + 1) retries (idx + 1)
      else if isTransportError e && decide (1 < retries) then
        retryLoopAux oracle (some e) (calls + 1) (retries - 1) idx
      else .thrown e (calls + 1)
termination_by retries + (fallbackModels.length - 1 - idx)
decreasing_by
  · simp only [Bool.and_eq_true, decide_eq_true_eq] at *
    omega
  · simp only [Bool.and_eq_true, decide_eq_true_eq] at *
    omega

/-- The loop's entry state: `retries = 3` and `currentModelIndex` the
position of `GEMINI_MODEL_NAME || "gemini-2.5-flash"` in the fallback
list, or `0` when absent. -/
def retryLoop (st : Settings) (oracle : Nat → Option JSError) : RetryResult :=
  let modelName := jsStrOr st.geminiModelName "gemini-2.5-flash"
  retryLoopAux oracle none 0 3 ((fallbackModels.indexOf? modelName).getD 0)

/-! ## `chatWithAI` end to end (`aiAgentController.js` lines 101-381) -/

/-- The JSON response of the chat endpoint.  Error responses carry no
`actionData` or `intent` field. -/
structure ChatResponse where
  success : Bool
  message : String
  actionData : Option ActionData
  intent : Option String
deriving Repr, DecidableEq

/-- The `catch` block of `chatWithAI` (lines 335-380): a missing API key,
a transport error, a model-not-found error and a 401/403 status each get
their own user-facing string; everything else gets the generic apology.
Nothing is rethrown. -/
def chatErrorHandler (st : Settings) (e : JSError) : ChatResponse :=
  if !jsStrTruthy st.geminiApiKey then
    ⟨false, "AI service is not configured. Please set GEMINI_API_KEY in your environment variables.", none, none⟩
  else if isTransportError e then
    ⟨false, "Unable to connect to AI service. Please check your internet connection and API key.", none, none⟩
  else if isModelNotFoundError e then
    ⟨false, "AI model not found. Please check if \"" ++ jsStrOr st.geminiModelName "gemini-2.0-flash-exp" ++ "\" is a valid model name.", none, none⟩
  else if e.status == some 401 || e.status == some 403 then
    ⟨false, "AI service authentication failed. Please check your GEMINI_API_KEY.", none, none⟩
  else
    ⟨false, "I'm sorry, I encountered an error. Please try again or rephrase your question.", none, none⟩

/-- The language-model collaborator, as the handler observes it: the
outcome of each `generateContent` call and, when one succeeds, the
`JSON.parse` of its text (`none` for invalid JSON, which line 209 turns
into a thrown parse error). -/
structure LLMSpec where
  outcomes : Nat → Option JSError
  parsed : Option AIAnalysis

/-- Response, resulting booking store, and number of `generateContent`
calls for one `POST /api/ai/chat` request. -/
structure ChatOutcome where
  resp : ChatResponse
  bookings : List Booking
  llmCalls : Nat
deriving Repr, DecidableEq

/-- The thrown error of line 209 when the model's reply is not JSON. -/
def parseFailError : JSError :=
  ⟨"Failed to parse AI response. The AI returned invalid JSON. Please try again.", none⟩

/-- `chatWithAI`: the message guard, the retry loop, JSON parsing, the
intent switch, the clarification suffix, and the `catch` block.  The
booking store is threaded through untouched — the handler never writes
to it. -/
def chatWithAI (st : Settings) (llm : LLMSpec) (env : Env)
    (message : Option String) (userId : Option String) : ChatOutcome :=
  if !jsStrTruthy message then
    ⟨⟨false, "Message is required", none, none⟩, env.bookings, 0⟩
  else
    match retryLoop st llm.outcomes with
    | .thrown e c => ⟨chatErrorHandler st e, env.bookings, c⟩
    | .exhausted lastErr c =>
      ⟨chatErrorHandler st (lastErr.getD ⟨"Failed to get response from AI", none⟩),
       env.bookings, c⟩
    | .success c =>
      match llm.parsed with
      | none => ⟨chatErrorHandler st parseFailError, env.bookings, c⟩
      | some a =>
        match handleIntent env userId a with
        | .error e => ⟨chatErrorHandler st e, env.bookings, c⟩
        | .ok (msg, ad) => ⟨⟨true, clarify a msg, ad, some a.intent⟩, env.bookings, c⟩

/-! ## The Clerk webhook handler (`clerkWebhooks`) -/

/-- The `data` object of a Clerk webhook event (the fields the handler
reads). -/
structure ClerkEventData where
  id : String
  emailAddresses : List String
  firstName : Option String
  lastName : Option String
  imageUrl : Option String
deriving Repr, DecidableEq

/-- The `userData` record the webhook handler assembles. -/
def clerkUserData (data : ClerkEventData) : User :=
  { id := data.id
    email := jsStrOr data.emailAddresses.head? "unknown@example.com"
    username :=
      jsStrOr (some ((data.firstName.getD "" ++ " " ++ data.lastName.getD "").trim))
        "Unknown User"
    image := jsStrOr data.imageUrl "https://example.com/default-avatar.png"
    role := "user"
    recentSearchedCities := [] }

/-- The webhook handler's JSON response together with its HTTP status. -/
structure WebhookResponse where
  status : Nat
  success : Bool
  message : String
deriving Repr, DecidableEq

/-- `clerkWebhooks`: after signature verification (whose failure, embedded
as `verifyOk = false`, lands in the `catch` answering 500 with the
error's message), the event type selects an upsert, an update, a delete,
or nothing, and the handler answers `success: true, "Webhook received"`. -/
def clerkWebhooks (verifyOk : Bool) (evType : String) (data : ClerkEventData)
    (users : List User) : List User × WebhookResponse :=
  if !verifyOk then
    (users, ⟨500, false, "Webhook verification failed"⟩)
  else
    let userData := clerkUserData data
    let users' :=
      if evType = "user.created" then
        if users.any (fun u => u.id == data.id) then
          users.map (fun u => if u.id == data.id then userData else u)
        else users ++ [userData]
      else if evType = "user.updated" then
        users.map (fun u => if u.id == data.id then userData else u)
      else if evType = "user.deleted" then
        users.filter (fun u => u.id != data.id)
      else users
    (users', ⟨200, true, "Webhook received"⟩)

/-! ## Supporting lemmas -/

/-- `jsCeilDiv` computes the exact rational ceiling for a natural
divisor. -/
theorem jsCeilDiv_eq_ceil (a : Int) (b : Nat) :
    jsCeilDiv a (b : Int) = Int.ceil ((a : ℚ) / (b : ℚ)) := by
  unfold jsCeilDiv
  rw [Int.fdiv_eq_ediv _ (Int.natCast_nonneg b)]
  have h : ((a : ℚ) / (b : ℚ)) = -(((-a : Int) : ℚ) / ((b : Nat) : ℚ)) := by
    push_cast
    ring
  rw [h, Int.ceil_neg, Rat.floor_intCast_div_natCast]

/-- The nights computation is the ceiling of the stay length in days
(86400000 milliseconds per day). -/
theorem nightsBetween_eq_ceil (ci co : Int) :
    nightsBetween ci co = Int.ceil (((co - ci : Int) : ℚ) / (86400000 : ℚ)) := by
  have h := jsCeilDiv_eq_ceil (co - ci) 86400000
  unfold nightsBetween msPerDay
  push_cast at h
  norm_num at h ⊢
  exact h

/-! ## Concrete fixtures used by witnesses and counterexamples -/

/-- A one-user, one-hotel, one-room database with no bookings. -/
def envA : Env :=
  ⟨[⟨"u1", "a@b.c", "Ann", "img", "user", []⟩],
   [⟨1, "Grand", "1 Main St", "Pune"⟩],
   [⟨2, 1, "Double", 100, ["wifi"], [], true⟩],
   []⟩

/-- `envA` with one existing booking of room 2 covering days 0-3. -/
def envB : Env :=
  { envA with bookings := [⟨"u9", 2, 1, 1, 0, 3 * 86400000, 300⟩] }

/-- A booking request for room 2, one day plus one millisecond long. -/
def reqA : BookRequest := ⟨2, 0, 86400001, .num 2⟩

/-! ## Claim theorems -/

/-- Claim C1: for every booking created by `createBookingViaAI` with valid
dates, the total price stored and returned equals nights times the room's
nightly rate, where nights is the ceiling of the date difference in days;
and the `check_availability` branch of `chatWithAI` reports the totalPrice
given by the same formula. -/
theorem totalPrice_eq_nights_times_rate
    (req : BookRequest) (uid : String) (ef : Bool) (env : Env)
    (usr : User) (room : Room) (hotel : Hotel)
    (hvalid : req.checkInDate < req.checkOutDate)
    (huser : env.users.find? (fun u => u.id == uid) = some usr)
    (havail : checkAvailability env.bookings req.roomId req.checkInDate req.checkOutDate = true)
    (hroom : env.rooms.find? (fun r => r.id == req.roomId) = some room)
    (hhotel : env.hotels.find? (fun h => h.id == room.hotel) = some hotel) :
    ((createBookingViaAI req (some uid) ef env).bookings
        = env.bookings ++ [⟨uid, req.roomId, room.hotel, guestsOrOne req.guests,
            req.checkInDate, req.checkOutDate,
            room.pricePerNight * nightsBetween req.checkInDate req.checkOutDate⟩]
      ∧ (createBookingViaAI req (some uid) ef env).resp.booking
        = some ⟨hotel.name, req.checkInDate, req.checkOutDate,
            room.pricePerNight * nightsBetween req.checkInDate req.checkOutDate,
            nightsBetween req.checkInDate req.checkOutDate⟩)
    ∧ nightsBetween req.checkInDate req.checkOutDate
        = Int.ceil (((req.checkOutDate - req.checkInDate : Int) : ℚ) / (86400000 : ℚ))
    ∧ (∀ (envc : Env) (uidc : Option String) (a : AIAnalysis)
         (rid : Nat) (ci co : Int) (roomc : Room) (hotelc : Hotel),
        a.intent = "check_availability" →
        a.extractedData.roomId = some rid →
        a.extractedData.checkInDate = some ci →
        a.extractedData.checkOutDate = some co →
        checkAvailability envc.bookings rid ci co = true →
        envc.rooms.find? (fun r => r.id == rid) = some roomc →
        envc.hotels.find? (fun h => h.id == roomc.hotel) = some hotelc →
        handleIntent envc uidc a =
          .ok (availOkText hotelc roomc ci co (nightsBetween ci co)
                 (roomc.pricePerNight * nightsBetween ci co),
               some (.availabilityOk roomc.id hotelc.name ci co
                 (roomc.pricePerNight * nightsBetween ci co) (nightsBetween ci co)))) := by
  refine ⟨⟨?_, ?_⟩, nightsBetween_eq_ceil _ _, ?_⟩
  · simp [createBookingViaAI, huser, havail, hroom, hhotel]
  · simp [createBookingViaAI, huser, havail, hroom, hhotel]
  · intro envc uidc a rid ci co roomc hotelc hi h1 h2 h3 h4 h5 h6
    simp [handleIntent, hi, h1, h2, h3, h4, h5, h6]

/-- Witness for C1 on the concrete fixture: one day plus a millisecond at
₹100 per night rounds up to 2 nights and ₹200. -/
theorem totalPrice_eq_nights_times_rate_witness :
    (createBookingViaAI reqA (some "u1") false envA).resp.booking
      = some ⟨"Grand", 0, 86400001, 200, 2⟩ := by
  have h := totalPrice_eq_nights_times_rate reqA "u1" false envA
    ⟨"u1", "a@b.c", "Ann", "img", "user", []⟩
    ⟨2, 1, "Double", 100, ["wifi"], [], true⟩
    ⟨1, "Grand", "1 Main St", "Pune"⟩
    (by decide) (by decide) (by decide) (by decide) (by decide)
  have hb := h.1.2
  rw [hb]
  decide

/-- Claim C2: a booking request whose date range overlaps an existing
booking for the same room makes `checkAvailability` return false, and
`createBookingViaAI` then answers `success: false` with "Room is not
available for the selected dates" and leaves the booking store
unchanged. -/
theorem overlapping_booking_rejected
    (req : BookRequest) (uid : String) (ef : Bool) (env : Env)
    (usr : User) (b : Booking)
    (huser : env.users.find? (fun u => u.id == uid) = some usr)
    (hb : b ∈ env.bookings)
    (hroom : b.room = req.roomId)
    (hov1 : b.checkInDate ≤ req.checkOutDate)
    (hov2 : req.checkInDate ≤ b.checkOutDate) :
    checkAvailability env.bookings req.roomId req.checkInDate req.checkOutDate = false
    ∧ createBookingViaAI req (some uid) ef env
        = ⟨⟨false, "Room is not available for the selected dates", none⟩, env.bookings, false⟩ := by
  have hav : checkAvailability env.bookings req.roomId req.checkInDate req.checkOutDate
      = false := by
    unfold checkAvailability
    rw [List.all_eq_false]
    exact ⟨b, hb, by simp [hroom, hov1, hov2]⟩
  refine ⟨hav, ?_⟩
  simp [createBookingViaAI, huser, hav]

/-- Witness for C2: booking room 2 for days 0-1 when it is already booked
for days 0-3 is rejected and `envB`'s bookings are untouched. -/
theorem overlapping_booking_rejected_witness :
    createBookingViaAI reqA (some "u1") false envB
      = ⟨⟨false, "Room is not available for the selected dates", none⟩,
         envB.bookings, false⟩ :=
  (overlapping_booking_rejected reqA "u1" false envB
    ⟨"u1", "a@b.c", "Ann", "img", "user", []⟩
    ⟨"u9", 2, 1, 1, 0, 3 * 86400000, 300⟩
    (by decide) (by decide) (by decide) (by decide) (by decide)).2

/-- Helper: the response and the booking store of `createBookingViaAI` do
not depend on whether the confirmation email fails. -/
theorem createBookingViaAI_email_invariant
    (req : BookRequest) (uid : Option String) (ef ef' : Bool) (env : Env) :
    (createBookingViaAI req uid ef env).resp = (createBookingViaAI req uid ef' env).resp
    ∧ (createBookingViaAI req uid ef env).bookings
        = (createBookingViaAI req uid ef' env).bookings := by
  unfold createBookingViaAI
  cases uid with
  | none => exact ⟨rfl, rfl⟩
  | some u =>
    cases hfind : env.users.find? (fun x => x.id == u) with
    | none => simp [hfind]
    | some usr =>
      by_cases hav : checkAvailability env.bookings req.roomId req.checkInDate req.checkOutDate
      · cases hroom : env.rooms.find? (fun r => r.id == req.roomId) with
        | none => simp [hfind, hav, hroom]
        | some room =>
          cases hhotel : env.hotels.find? (fun h => h.id == room.hotel) with
          | none => simp [hfind, hav, hroom, hhotel]
          | some hotel => simp [hfind, hav, hroom, hhotel]
      · simp [hfind, hav]

/-- Claim C5: once the booking is created, an email failure is swallowed —
the endpoint answers exactly as it would with a working email transport:
`success: true` with the same booking details and the same store. -/
theorem email_failure_preserves_booking
    (req : BookRequest) (uid : Option String) (env : Env)
    (hsucc : (createBookingViaAI req uid false env).resp.success = true) :
    (createBookingViaAI req uid true env).resp.success = true
    ∧ (createBookingViaAI req uid true env).resp
        = (createBookingViaAI req uid false env).resp
    ∧ (createBookingViaAI req uid true env).bookings
        = (createBookingViaAI req uid false env).bookings := by
  have h := createBookingViaAI_email_invariant req uid true false env
  exact ⟨by rw [h.1]; exact hsucc, h.1, h.2⟩

/-- Witness for C5: on the concrete fixture the booking succeeds and the
failing email changes nothing. -/
theorem email_failure_preserves_booking_witness :
    (createBookingViaAI reqA (some "u1") true envA).resp.success = true
    ∧ (createBookingViaAI reqA (some "u1") true envA).resp
        = (createBookingViaAI reqA (some "u1") false envA).resp
    ∧ (createBookingViaAI reqA (some "u1") true envA).bookings
        = (createBookingViaAI reqA (some "u1") false envA).bookings :=
  email_failure_preserves_booking reqA (some "u1") envA (by decide)

/-- Claim C9: the created booking's guests count is `+guests || 1`: it
defaults to `1` when the request's `guests` is absent, zero, or not
coercible to a number, and is the coerced number otherwise. -/
theorem guests_default_one
    (req : BookRequest) (uid : Option String) (ef : Bool) (env : Env) :
    ((createBookingViaAI req uid ef env).resp.success = true →
      ∃ b : Booking, (createBookingViaAI req uid ef env).bookings = env.bookings ++ [b]
        ∧ b.guests = guestsOrOne req.guests)
    ∧ (∀ g : JSVal, toNumber g = none ∨ toNumber g = some 0 → guestsOrOne g = 1)
    ∧ (∀ (g : JSVal) (n : Int), toNumber g = some n → n ≠ 0 → guestsOrOne g = n) := by
  refine ⟨?_, ?_, ?_⟩
  · intro hsucc
    cases uid with
    | none => simp [createBookingViaAI] at hsucc
    | some u =>
      cases hfind : env.users.find? (fun x => x.id == u) with
      | none => simp [createBookingViaAI, hfind] at hsucc
      | some usr =>
        by_cases hav : checkAvailability env.bookings req.roomId req.checkInDate req.checkOutDate
        · cases hroom : env.rooms.find? (fun r => r.id == req.roomId) with
          | none => simp [createBookingViaAI, hfind, hav, hroom] at hsucc
          | some room =>
            cases hhotel : env.hotels.find? (fun h => h.id == room.hotel) with
            | none => simp [createBookingViaAI, hfind, hav, hroom, hhotel] at hsucc
            | some hotel =>
              exact ⟨⟨u, req.roomId, room.hotel, guestsOrOne req.guests,
                       req.checkInDate, req.checkOutDate,
                       room.pricePerNight * nightsBetween req.checkInDate req.checkOutDate⟩,
                     by simp [createBookingViaAI, hfind, hav, hroom, hhotel], rfl⟩
        · simp [createBookingViaAI, hfind, hav] at hsucc
  · intro g hg
    rcases hg with hg | hg <;> simp [guestsOrOne, hg]
  · intro g n hg hn
    simp [guestsOrOne, hg, hn]

/-- Witness for C9: a non-numeric string defaults to 1 guest, the numeral
5 stays 5, and the concrete successful booking stores `guestsOrOne`. -/
theorem guests_default_one_witness :
    guestsOrOne (JSVal.str "abc") = 1
    ∧ guestsOrOne (JSVal.num 5) = 5
    ∧ ∃ b : Booking,
        (createBookingViaAI reqA (some "u1") false envA).bookings
          = envA.bookings ++ [b] ∧ b.guests = guestsOrOne reqA.guests :=
  ⟨(guests_default_one reqA (some "u1") false envA).2.1 (JSVal.str "abc") (by decide),
   (guests_default_one reqA (some "u1") false envA).2.2 (JSVal.num 5) 5 (by decide) (by decide),
   (guests_default_one reqA (some "u1") false envA).1 (by decide)⟩

/-- Helper: each loop iteration either succeeds, rethrows, consumes one
of the `retries` budget, or consumes one of the remaining fallback-model
slots, so the number of `generateContent` calls is bounded by the
budgets. -/
theorem retryLoopAux_calls_le (oracle : Nat → Option JSError) :
    ∀ (fuel : Nat) (lastErr : Option JSError) (calls retries idx : Nat),
      retries + (fallbackModels.length - 1 - idx) ≤ fuel →
      (retryLoopAux oracle lastErr calls retries idx).calls
        ≤ calls + retries + (fallbackModels.length - 1 - idx) := by
  intro fuel
  induction fuel with
  | zero =>
    intro lastErr calls retries idx hle
    have h0 : retries = 0 := by omega
    rw [retryLoopAux]
    simp [h0, RetryResult.calls]
  | succ n ih =>
    intro lastErr calls retries idx hle
    rw [retryLoopAux]
    by_cases h0 : retries = 0
    · simp [h0, RetryResult.calls]
    · rw [if_neg h0]
      cases horacle : oracle calls with
      | none => simp [RetryResult.calls]; omega
      | some e =>
        dsimp only
        by_cases h1 : (isModelNotFoundError e && decide (idx < fallbackModels.length - 1)) = true
        · rw [if_pos h1]
          have hidx : idx < fallbackModels.length - 1 := by
            have := (Bool.and_eq_true _ _).mp h1
            exact of_decide_eq_true this.2
          have hrec := ih (some e) (calls + 1) retries (idx + 1)
            (by simp only [fallbackModels, List.length] at hidx hle ⊢; omega)
          simp only [fallbackModels, List.length] at hidx hrec ⊢
          omega
        · rw [if_neg h1]
          by_cases h2 : (isTransportError e && decide (1 < retries)) = true
          · rw [if_pos h2]
            have hr : 1 < retries := by
              have := (Bool.and_eq_true _ _).mp h2
              exact of_decide_eq_true this.2
            have hrec := ih (some e) (calls + 1) (retries - 1) idx (by omega)
            omega
          · rw [if_neg h2]
            simp [RetryResult.calls]
            omega

/-- Helper: a first-call success ends the loop after exactly one
`generateContent` call. -/
theorem retryLoop_first_success (st : Settings) (oracle : Nat → Option JSError)
    (h : oracle 0 = none) : retryLoop st oracle = .success 1 := by
  rw [retryLoop, retryLoopAux]
  simp [h]

/-- Helper: a first-call error that is neither a model-404 nor a
transport error is rethrown at once. -/
theorem retryLoop_first_other_thrown (st : Settings) (oracle : Nat → Option JSError)
    (e : JSError) (h : oracle 0 = some e)
    (hm : isModelNotFoundError e = false) (ht : isTransportError e = false) :
    retryLoop st oracle = .thrown e 1 := by
  rw [retryLoop, retryLoopAux]
  simp [h, hm, ht]

/-- Claim C4: the retry/fallback loop always ends after a bounded number
of `generateContent` calls — at most 5 (1 first attempt, at most 2
transport retries out of the 3-attempt budget, at most 2 model
fallbacks along the 3-entry fallback list) — and any error that is
neither a model-404 nor a transport error is rethrown immediately. -/
theorem retryLoop_call_bound (st : Settings) (oracle : Nat → Option JSError) :
    (retryLoop st oracle).calls ≤ 5
    ∧ fallbackModels.length = 3
    ∧ (∀ e : JSError, oracle 0 = some e → isModelNotFoundError e = false →
        isTransportError e = false → retryLoop st oracle = .thrown e 1)
    ∧ (oracle 0 = none → retryLoop st oracle = .success 1) := by
  refine ⟨?_, rfl, ?_, ?_⟩
  · have h := retryLoopAux_calls_le oracle 5 none 0 3
      ((fallbackModels.indexOf? (jsStrOr st.geminiModelName "gemini-2.5-flash")).getD 0)
      (by simp only [fallbackModels, List.length]; omega)
    rw [retryLoop]
    simp only [fallbackModels, List.length] at h ⊢
    omega
  · intro e h hm ht
    exact retryLoop_first_other_thrown st oracle e h hm ht
  · intro h
    exact retryLoop_first_success st oracle h

/-- Witness for C4: a permanently failing transport gives exactly 3
`generateContent` calls, then the handler-visible throw; a healthy
transport gives 1 call. -/
theorem retryLoop_call_bound_witness :
    (retryLoop ⟨some "k", none⟩ (fun _ => none)).calls ≤ 5
    ∧ retryLoop ⟨some "k", none⟩ (fun _ => some ⟨"boom", none⟩)
        = .thrown ⟨"boom", none⟩ 1
    ∧ retryLoop ⟨some "k", none⟩ (fun _ => none) = .success 1 :=
  ⟨(retryLoop_call_bound ⟨some "k", none⟩ (fun _ => none)).1,
   (retryLoop_call_bound ⟨some "k", none⟩ (fun _ => some ⟨"boom", none⟩)).2.2.1
     ⟨"boom", none⟩ rfl (by decide) (by decide),
   (retryLoop_call_bound ⟨some "k", none⟩ (fun _ => none)).2.2.2 rfl⟩

/-- Helper: `chatWithAI` never writes to the booking store. -/
theorem chatWithAI_bookings (st : Settings) (llm : LLMSpec) (env : Env)
    (message userId : Option String) :
    (chatWithAI st llm env message userId).bookings = env.bookings := by
  unfold chatWithAI
  by_cases hmsg : jsStrTruthy message = true
  · rw [if_neg (by simp [hmsg])]
    cases hloop : retryLoop st llm.outcomes with
    | thrown e c => simp
    | exhausted lastErr c => simp
    | success c =>
      dsimp only
      cases hp : llm.parsed with
      | none => simp
      | some a =>
        dsimp only
        cases hi : handleIntent env userId a with
        | error e => simp
        | ok p => simp
  · rw [if_pos (by simp [Bool.not_eq_true] at hmsg; simp [hmsg])]

/-- Helper: the success path of `chatWithAI` assembles the reply from the
intent switch and the clarification suffix. -/
theorem chatWithAI_success_eval (st : Settings) (llm : LLMSpec) (env : Env)
    (message userId : Option String) (a : AIAnalysis) (c : Nat)
    (msg : String) (ad : Option ActionData)
    (hmsg : jsStrTruthy message = true)
    (hloop : retryLoop st llm.outcomes = .success c)
    (hparsed : llm.parsed = some a)
    (hintent : handleIntent env userId a = .ok (msg, ad)) :
    chatWithAI st llm env message userId
      = ⟨⟨true, clarify a msg, ad, some a.intent⟩, env.bookings, c⟩ := by
  unfold chatWithAI
  rw [if_neg (by simp [hmsg]), hloop]
  dsimp only
  rw [hparsed]
  dsimp only
  rw [hintent]

/-- Claim C8: a chat request with no (or an empty) message is answered
`success: false, "Message is required"` with zero `generateContent` calls
and an untouched booking store. -/
theorem empty_message_early_return
    (st : Settings) (llm : LLMSpec) (env : Env) (userId : Option String)
    (message : Option String)
    (h : message = none ∨ message = some "") :
    chatWithAI st llm env message userId
      = ⟨⟨false, "Message is required", none, none⟩, env.bookings, 0⟩ := by
  rcases h with h | h <;> subst h <;> simp [chatWithAI, jsStrTruthy]

/-- Witness for C8 at both concrete degenerate messages. -/
theorem empty_message_early_return_witness :
    chatWithAI ⟨some "k", none⟩ ⟨fun _ => none, none⟩ envA none none
      = ⟨⟨false, "Message is required", none, none⟩, envA.bookings, 0⟩
    ∧ chatWithAI ⟨some "k", none⟩ ⟨fun _ => none, none⟩ envA (some "") none
      = ⟨⟨false, "Message is required", none, none⟩, envA.bookings, 0⟩ :=
  ⟨empty_message_early_return ⟨some "k", none⟩ ⟨fun _ => none, none⟩ envA none none
     (Or.inl rfl),
   empty_message_early_return ⟨some "k", none⟩ ⟨fun _ => none, none⟩ envA none (some "")
     (Or.inr rfl)⟩

/-- Claim C6: every error thrown inside `chatWithAI` lands in the `catch`
block, which always answers `success: false` with a user-facing string —
a specific one for a missing API key, a transport failure, a
model-not-found error, and a 401/403 status, and the generic apology
otherwise; the error is never rethrown to the caller. -/
theorem chat_errors_to_user_string (st : Settings) (e : JSError) :
    (chatErrorHandler st e).success = false
    ∧ (jsStrTruthy st.geminiApiKey = false →
        (chatErrorHandler st e).message
          = "AI service is not configured. Please set GEMINI_API_KEY in your environment variables.")
    ∧ (jsStrTruthy st.geminiApiKey = true → isTransportError e = true →
        (chatErrorHandler st e).message
          = "Unable to connect to AI service. Please check your internet connection and API key.")
    ∧ (jsStrTruthy st.geminiApiKey = true → isTransportError e = false →
        isModelNotFoundError e = true →
        (chatErrorHandler st e).message
          = "AI model not found. Please check if \""
              ++ jsStrOr st.geminiModelName "gemini-2.0-flash-exp"
              ++ "\" is a valid model name.")
    ∧ (jsStrTruthy st.geminiApiKey = true → isTransportError e = false →
        isModelNotFoundError e = false → (e.status = some 401 ∨ e.status = some 403) →
        (chatErrorHandler st e).message
          = "AI service authentication failed. Please check your GEMINI_API_KEY.")
    ∧ (jsStrTruthy st.geminiApiKey = true → isTransportError e = false →
        isModelNotFoundError e = false → e.status ≠ some 401 → e.status ≠ some 403 →
        (chatErrorHandler st e).message
          = "I'm sorry, I encountered an error. Please try again or rephrase your question.")
    ∧ (∀ (llm : LLMSpec) (env : Env) (message userId : Option String)
          (e' : JSError) (c : Nat),
        jsStrTruthy message = true → retryLoop st llm.outcomes = .thrown e' c →
        (chatWithAI st llm env message userId).resp = chatErrorHandler st e') := by
  refine ⟨?_, ?_, ?_, ?_, ?_, ?_, ?_⟩
  · unfold chatErrorHandler
    split
    · rfl
    split
    · rfl
    split
    · rfl
    split
    · rfl
    · rfl
  · intro hk
    simp [chatErrorHandler, hk]
  · intro hk ht
    simp [chatErrorHandler, hk, ht]
  · intro hk ht hm
    simp [chatErrorHandler, hk, ht, hm]
  · intro hk ht hm hs
    rcases hs with hs | hs <;> simp [chatErrorHandler, hk, ht, hm, hs]
  · intro hk ht hm h401 h403
    simp [chatErrorHandler, hk, ht, hm, h401, h403]
  · intro llm env message userId e' c hmsg hloop
    unfold chatWithAI
    rw [if_neg (by simp [hmsg]), hloop]

/-- Witness for C6: on a concrete 500-status error with a healthy key the
handler gives the generic apology, and a thrown transport error inside
`chatWithAI` surfaces as the connectivity message. -/
theorem chat_errors_to_user_string_witness :
    (chatErrorHandler ⟨some "k", none⟩ ⟨"kaput", some 500⟩).message
      = "I'm sorry, I encountered an error. Please try again or rephrase your question."
    ∧ (chatErrorHandler ⟨some "k", none⟩ ⟨"kaput", some 500⟩).success = false :=
  ⟨(chat_errors_to_user_string ⟨some "k", none⟩ ⟨"kaput", some 500⟩).2.2.2.2.2.1
     (by decide) (by decide) (by decide) (by decide) (by decide),
   (chat_errors_to_user_string ⟨some "k", none⟩ ⟨"kaput", some 500⟩).1⟩

/-- A canned reply with intent "question", a clarification request, and
response text "R". -/
def questionAnalysis : AIAnalysis :=
  ⟨"question", ⟨none, none, none, none, none, none, none, none, none⟩, ["dates"], "R"⟩

/-- A language model that answers at once with `questionAnalysis`. -/
def llmQ : LLMSpec := ⟨fun _ => none, some questionAnalysis⟩

/-- Settings with an API key present and no model-name override. -/
def stA : Settings := ⟨some "k", none⟩

/-- Counterexample to C3 as stated: for the canned reply with intent
"question", `needsClarification = ["dates"]` and response "R", the chat
endpoint does not return the LLM-supplied response field unchanged — the
clarification request is appended. -/
theorem question_response_modified_cex :
    (chatWithAI stA llmQ envA (some "hi") none).resp.intent = some "question"
    ∧ (chatWithAI stA llmQ envA (some "hi") none).resp.message
        ≠ questionAnalysis.response := by
  have hint : handleIntent envA none questionAnalysis
      = .ok (questionAnalysis.response, none) := by rfl
  have h := chatWithAI_success_eval stA llmQ envA (some "hi") none questionAnalysis 1
    questionAnalysis.response none (by decide)
    (retryLoop_first_success stA llmQ.outcomes rfl) rfl hint
  rw [h]
  exact ⟨rfl, by decide⟩

/-- Claim C3 (amended): the branch taken is determined by the intent
label — "search" runs the room search when `needsClarification` is empty,
"check_availability" runs the availability check when `roomId` and both
dates are present, "book" builds a booking summary when the user is
logged in, `needsClarification` is empty and the extracted room exists,
"greeting" yields the fixed greeting text, and every other intent
(including "question") yields the LLM-supplied response field; the final
reply is that branch text unchanged exactly when `needsClarification` is
empty, and otherwise has the clarification request appended. -/
theorem intent_dispatch_branches (env : Env) (uid : Option String) (a : AIAnalysis) :
    (a.intent = "search" → a.needsClarification = [] →
      ∀ rooms, resolveHotels env (searchHotels env a.extractedData) = .ok rooms →
        handleIntent env uid a
          = .ok (formatRoomsForAI rooms, some (.searchResults (rooms.map mkRoomSummary))))
    ∧ (a.intent = "check_availability" →
        ∀ rid ci co, a.extractedData.roomId = some rid →
          a.extractedData.checkInDate = some ci →
          a.extractedData.checkOutDate = some co →
          (checkAvailability env.bookings rid ci co = false →
            handleIntent env uid a = .ok (availNoText, some .availabilityNo))
          ∧ (checkAvailability env.bookings rid ci co = true →
              ∀ room hotel, env.rooms.find? (fun r => r.id == rid) = some room →
                env.hotels.find? (fun h => h.id == room.hotel) = some hotel →
                handleIntent env uid a
                  = .ok (availOkText hotel room ci co (nightsBetween ci co)
                           (room.pricePerNight * nightsBetween ci co),
                         some (.availabilityOk room.id hotel.name ci co
                           (room.pricePerNight * nightsBetween ci co)
                           (nightsBetween ci co)))))
    ∧ (a.intent = "book" → ∀ u, uid = some u → a.needsClarification = [] →
        ∀ rid room hotel, a.extractedData.roomId = some rid →
          env.rooms.find? (fun r => r.id == rid) = some room →
          env.hotels.find? (fun h => h.id == room.hotel) = some hotel →
          handleIntent env uid a
            = .ok (bookSummaryText hotel room (a.extractedData.checkInDate.getD 0)
                     (a.extractedData.checkOutDate.getD 0)
                     (jsonGuestsOrOne a.extractedData.guests)
                     (room.pricePerNight
                       * nightsBetween (a.extractedData.checkInDate.getD 0)
                           (a.extractedData.checkOutDate.getD 0)),
                   some (.bookingConfirmation room.id hotel.name
                     (a.extractedData.checkInDate.getD 0)
                     (a.extractedData.checkOutDate.getD 0)
                     (jsonGuestsOrOne a.extractedData.guests)
                     (room.pricePerNight
                       * nightsBetween (a.extractedData.checkInDate.getD 0)
                           (a.extractedData.checkOutDate.getD 0)))))
    ∧ (a.intent = "greeting" → handleIntent env uid a = .ok (greetingText, none))
    ∧ (a.intent ≠ "search" → a.intent ≠ "check_availability" → a.intent ≠ "book" →
        a.intent ≠ "greeting" → handleIntent env uid a = .ok (a.response, none))
    ∧ (∀ msg, a.needsClarification = [] → clarify a msg = msg)
    ∧ (∀ msg, a.needsClarification ≠ [] →
        clarify a msg
          = msg ++ "\n\nI need a bit more information: "
              ++ String.intercalate ", " a.needsClarification) := by
  refine ⟨?_, ?_, ?_, ?_, ?_, ?_, ?_⟩
  · intro hi hclar rooms hres
    simp [handleIntent, hi, hclar, hres]
  · intro hi rid ci co h1 h2 h3
    constructor
    · intro hav
      simp [handleIntent, hi, h1, h2, h3, hav]
    · intro hav room hotel hroom hhotel
      simp [handleIntent, hi, h1, h2, h3, hav, hroom, hhotel]
  · intro hi u hu hclar rid room hotel h1 hroom hhotel
    subst hu
    simp [handleIntent, hi, hclar, h1, hroom, hhotel]
  · intro hi
    simp [handleIntent, hi]
  · intro h1 h2 h3 h4
    simp [handleIntent, h1, h2, h3, h4]
  · intro msg hclar
    simp [clarify, hclar]
  · intro msg hclar
    simp [clarify, hclar]

/-- Witness for C3 (amended): on concrete inputs each clause fires — here
the "greeting" clause, the other-intent ("question") clause and both
clarification cases. -/
theorem intent_dispatch_branches_witness :
    handleIntent envA none ⟨"greeting", questionAnalysis.extractedData, [], "R"⟩
      = .ok (greetingText, none)
    ∧ handleIntent envA none questionAnalysis
      = .ok (questionAnalysis.response, none)
    ∧ clarify ⟨"greeting", questionAnalysis.extractedData, [], "R"⟩ "m" = "m"
    ∧ clarify questionAnalysis "R" = "R\n\nI need a bit more information: dates" :=
  ⟨(intent_dispatch_branches envA none
      ⟨"greeting", questionAnalysis.extractedData, [], "R"⟩).2.2.2.1 rfl,
   (intent_dispatch_branches envA none questionAnalysis).2.2.2.2.1
     (by decide) (by decide) (by decide) (by decide),
   (intent_dispatch_branches envA none
      ⟨"greeting", questionAnalysis.extractedData, [], "R"⟩).2.2.2.2.2.1 "m" rfl,
   (intent_dispatch_branches envA none questionAnalysis).2.2.2.2.2.2 "R" (by decide)⟩

/-- Counterexample to C7 as stated: no chat request whatsoever — whatever
the settings, language-model behaviour, database, message or user — makes
`chatWithAI` change the booking store, so handling a chat message never
itself creates a Booking document. -/
theorem chat_never_creates_booking_cex :
    ¬ ∃ (st : Settings) (llm : LLMSpec) (env : Env) (message userId : Option String),
        (chatWithAI st llm env message userId).bookings ≠ env.bookings := by
  rintro ⟨st, llm, env, message, userId, h⟩
  exact h (chatWithAI_bookings st llm env message userId)

/-- A canned reply with intent "book", complete data and no
clarifications. -/
def bookAnalysis : AIAnalysis :=
  ⟨"book", ⟨none, none, some 0, some 86400001, some 2, some 2, none, none, none⟩, [], "R"⟩

/-- A language model that answers at once with `bookAnalysis`. -/
def llmB : LLMSpec := ⟨fun _ => none, some bookAnalysis⟩

/-- Claim C7 (amended): a chat message classified as a booking request
only yields a `booking_confirmation` action payload and leaves the
booking store unchanged; the Booking document itself is created by the
separate `/api/ai/book` endpoint, `createBookingViaAI`. -/
theorem chat_book_returns_confirmation
    (st : Settings) (llm : LLMSpec) (env : Env) (message : Option String)
    (u : String) (a : AIAnalysis) (c : Nat) (rid : Nat) (room : Room) (hotel : Hotel)
    (hmsg : jsStrTruthy message = true)
    (hloop : retryLoop st llm.outcomes = .success c)
    (hparsed : llm.parsed = some a)
    (hintent : a.intent = "book")
    (hclar : a.needsClarification = [])
    (hrid : a.extractedData.roomId = some rid)
    (hroom : env.rooms.find? (fun r => r.id == rid) = some room)
    (hhotel : env.hotels.find? (fun h => h.id == room.hotel) = some hotel) :
    (chatWithAI st llm env message (some u)).bookings = env.bookings
    ∧ (chatWithAI st llm env message (some u)).resp.actionData
        = some (.bookingConfirmation room.id hotel.name
            (a.extractedData.checkInDate.getD 0) (a.extractedData.checkOutDate.getD 0)
            (jsonGuestsOrOne a.extractedData.guests)
            (room.pricePerNight
              * nightsBetween (a.extractedData.checkInDate.getD 0)
                  (a.extractedData.checkOutDate.getD 0)))
    ∧ (∀ (req : BookRequest) (ef : Bool) (usr : User) (roomd : Room) (hoteld : Hotel),
        env.users.find? (fun x => x.id == u) = some usr →
        checkAvailability env.bookings req.roomId req.checkInDate req.checkOutDate = true →
        env.rooms.find? (fun r => r.id == req.roomId) = some roomd →
        env.hotels.find? (fun h => h.id == roomd.hotel) = some hoteld →
        ∃ b : Booking,
          (createBookingViaAI req (some u) ef env).bookings = env.bookings ++ [b]) := by
  have hint : handleIntent env (some u) a
      = .ok (bookSummaryText hotel room (a.extractedData.checkInDate.getD 0)
               (a.extractedData.checkOutDate.getD 0)
               (jsonGuestsOrOne a.extractedData.guests)
               (room.pricePerNight
                 * nightsBetween (a.extractedData.checkInDate.getD 0)
                     (a.extractedData.checkOutDate.getD 0)),
             some (.bookingConfirmation room.id hotel.name
               (a.extractedData.checkInDate.getD 0) (a.extractedData.checkOutDate.getD 0)
               (jsonGuestsOrOne a.extractedData.guests)
               (room.pricePerNight
                 * nightsBetween (a.extractedData.checkInDate.getD 0)
                     (a.extractedData.checkOutDate.getD 0)))) := by
    simp [handleIntent, hintent, hclar, hrid, hroom, hhotel]
  have h := chatWithAI_success_eval st llm env message (some u) a c _ _
    hmsg hloop hparsed hint
  refine ⟨by rw [h], by rw [h], ?_⟩
  intro req ef usr roomd hoteld h1 h2 h3 h4
  exact ⟨⟨u, req.roomId, roomd.hotel, guestsOrOne req.guests, req.checkInDate,
          req.checkOutDate,
          roomd.pricePerNight * nightsBetween req.checkInDate req.checkOutDate⟩,
         by simp [createBookingViaAI, h1, h2, h3, h4]⟩

/-- Witness for C7 (amended): the concrete book-intent chat leaves the
(empty) booking store alone and returns the confirmation payload. -/
theorem chat_book_returns_confirmation_witness :
    (chatWithAI stA llmB envA (some "book it") (some "u1")).bookings = envA.bookings
    ∧ (chatWithAI stA llmB envA (some "book it") (some "u1")).resp.actionData
        = some (.bookingConfirmation 2 "Grand" 0 86400001 2 200) := by
  have h := chat_book_returns_confirmation stA llmB envA (some "book it") "u1"
    bookAnalysis 1 2 ⟨2, 1, "Double", 100, ["wifi"], [], true⟩
    ⟨1, "Grand", "1 Main St", "Pune"⟩
    (by decide) (retryLoop_first_success stA llmB.outcomes rfl) rfl rfl rfl rfl
    (by decide) (by decide)
  refine ⟨h.1, ?_⟩
  rw [h.2.1]
  decide

/-- Claim C10: a verified Clerk webhook event whose type is none of
`user.created`, `user.updated`, `user.deleted` leaves the User collection
unchanged and is still answered `success: true, "Webhook received"`. -/
theorem webhook_unknown_event_noop
    (evType : String) (data : ClerkEventData) (users : List User)
    (h1 : evType ≠ "user.created") (h2 : evType ≠ "user.updated")
    (h3 : evType ≠ "user.deleted") :
    clerkWebhooks true evType data users = (users, ⟨200, true, "Webhook received"⟩) := by
  simp [clerkWebhooks, h1, h2, h3]

/-- Witness for C10 at the concrete event type `session.created`. -/
theorem webhook_unknown_event_noop_witness :
    clerkWebhooks true "session.created" ⟨"u1", [], none, none, none⟩
        [⟨"u1", "a@b.c", "Ann", "img", "user", []⟩]
      = ([⟨"u1", "a@b.c", "Ann", "img", "user", []⟩], ⟨200, true, "Webhook received"⟩) :=
  webhook_unknown_event_noop "session.created" ⟨"u1", [], none, none, none⟩
    [⟨"u1", "a@b.c", "Ann", "img", "user", []⟩]
    (by decide) (by decide) (by decide)

end QuickStay
